import Mathlib

/-!
# Verification of the shared-ptr crate's specification

A shallow embedding, in Lean 4, of the `shared-ptr` Rust crate
(`src/lib.rs`): one macro `define_shared_mut!` instantiated three times,
giving `rc_refcell::SharedPtr` (over `Rc<RefCell<T>>`),
`arc_mutex::SharedPtr` (over `Arc<parking_lot::Mutex<T>>`) and
`arc_rwlock::SharedPtr` (over `Arc<parking_lot::RwLock<T>>`), each with a
`WeakPtr` counterpart.

The embedding has three layers:

* a reference-counted store of allocations (`Store`, `Alloc`) modelling
  the `Rc`/`Arc` allocation shared by every clone of a `SharedPtr`, with
  `new`, `clone`, value access through guards (`readVal`/`writeVal`),
  strong-count drop and the `WeakPtr` operations `downgrade`, `new`,
  `upgrade` (lib.rs lines 52-66, 112-116, 165-187);
* the `RefCell` borrow-flag machine used by the `rc_refcell` variant
  (`BorrowFlag`, `borrowRead`, `borrowWrite`), where a failed borrow is a
  panic at the moment of the request (lib.rs line 221);
* the `parking_lot` lock machines used by the `arc_mutex` and
  `arc_rwlock` variants (`MutexState`, `RwState`), where a contended
  acquisition blocks (`Acq.blocked`) instead of failing
  (lib.rs lines 240, 260-270).

Machine integers play no role in the crate: the payloads are an opaque
type `α` and reference counts are `Nat` (overflow of `Rc`'s count aborts
long before any behaviour in scope here).
-/

namespace SharedPtrSpec

/-- One reference-counted allocation: the contained value together with its
strong count. Models the heap cell behind `Rc<RefCell<T>>` /
`Arc<Mutex<T>>` / `Arc<RwLock<T>>`: `value` is the `T` inside the guard
wrapper and `strong` the number of strong handles (lib.rs line 49,
`pub struct $name<T: ?Sized>($ptr<$guard<T>>)`). -/
structure Alloc (α : Type) where
  value : α
  strong : Nat
  deriving DecidableEq

/-- The heap: allocation ids index into `allocs`; a `none` entry is an
allocation whose value has been destroyed (all strong handles dropped)
but whose id is still reserved by outstanding weak handles. -/
structure Store (α : Type) where
  allocs : List (Option (Alloc α))
  deriving DecidableEq

/-- A strong handle (`SharedPtr<T>`): it designates one allocation of the
store. Two handles with the same `id` are clones sharing one allocation. -/
structure SharedPtr where
  id : Nat
  deriving DecidableEq

/-- A weak handle (`WeakPtr<T>`): `target = none` models the empty handle
made by the no-argument `WeakPtr::new` (lib.rs lines 184-186), which can
never be upgraded; `target = some i` models a handle obtained by
`downgrade` from a strong handle on allocation `i`. -/
structure WeakPtr where
  target : Option Nat
  deriving DecidableEq

variable {α : Type}

/-- The empty heap. -/
def Store.empty : Store α := ⟨[]⟩

/-- The allocation a strong handle designates, when its value is live. -/
def Store.lookup (st : Store α) (h : SharedPtr) : Option (Alloc α) :=
  match st.allocs.get? h.id with
  | some (some a) => some a
  | _ => none

/-- Replace one allocation entry of the store. -/
def Store.setAlloc (st : Store α) (i : Nat) (a : Option (Alloc α)) : Store α :=
  ⟨st.allocs.set i a⟩

/-- Models `SharedPtr::new` (lib.rs lines 53-55): `$name($ptr::new($guard::new(init)))`
allocates a fresh cell holding `init` with strong count 1 and returns the
handle to it. The model appends the allocation at the end of the heap. -/
def SharedPtr.new (v : α) (st : Store α) : SharedPtr × Store α :=
  (⟨st.allocs.length⟩, ⟨st.allocs ++ [some ⟨v, 1⟩]⟩)

/-- Models `Clone for $name` (lib.rs lines 112-116): `$name(self.0.clone())` clones
the `Rc`/`Arc`, that is, it increments the strong count of the SAME
allocation and returns a handle with the same id — never a value copy,
and it never touches the borrow flag or lock. -/
def SharedPtr.clone (h : SharedPtr) (st : Store α) : SharedPtr × Store α :=
  match st.lookup h with
  | some a => (⟨h.id⟩, st.setAlloc h.id (some { a with strong := a.strong + 1 }))
  | none => (⟨h.id⟩, st)

/-- The value observed by dereferencing the guard of `read()` (lib.rs lines
59-61): the current contained value of the handle's allocation. `none`
models a dangling handle, which cannot arise for a live `SharedPtr`. -/
def Store.readVal (st : Store α) (h : SharedPtr) : Option α :=
  (st.lookup h).map Alloc.value

/-- Assignment through the guard of `write()` (lib.rs lines 63-65, used as
`*(answer.write()) = 42u32` in the crate's test, lines 199): replaces the
contained value of the handle's allocation in place. -/
def Store.writeVal (st : Store α) (h : SharedPtr) (v : α) : Store α :=
  match st.lookup h with
  | some a => st.setAlloc h.id (some { a with value := v })
  | none => st

/-- Dropping a strong handle: `Rc`/`Arc` drop decrements the strong count
and destroys the value when the count reaches zero (the entry becomes
`none`; weak handles to that id then see a dead allocation). -/
def SharedPtr.dropStrong (h : SharedPtr) (st : Store α) : Store α :=
  match st.lookup h with
  | some a =>
    if a.strong ≤ 1 then st.setAlloc h.id none
    else st.setAlloc h.id (some { a with strong := a.strong - 1 })
  | none => st

/-- Models `WeakPtr::downgrade` (lib.rs lines 170-172): `$weak_name($ptr::downgrade(&strong.0))`
records the strong handle's allocation id without owning it. -/
def WeakPtr.downgrade (h : SharedPtr) : WeakPtr := ⟨some h.id⟩

/-- The no-argument `WeakPtr::new` (lib.rs lines 184-186): a weak handle
that never pointed at any allocation. -/
def WeakPtr.new : WeakPtr := ⟨none⟩

/-- Models `WeakPtr::upgrade` (lib.rs lines 174-176): `self.0.upgrade().map($name)`.
`Weak::upgrade` on `Rc`/`Arc` returns a new strong handle — incrementing
the strong count — exactly when the allocation's value is still live
(its strong count is nonzero); otherwise it returns `None`. -/
def WeakPtr.upgrade (w : WeakPtr) (st : Store α) : Option (SharedPtr × Store α) :=
  match w.target with
  | none => none
  | some i =>
    match st.allocs.get? i with
    | some (some a) =>
      if 0 < a.strong then
        some (⟨i⟩, st.setAlloc i (some { a with strong := a.strong + 1 }))
      else none
    | _ => none

/-! ### Basic store lemmas -/

theorem Store.lookup_eq_some {st : Store α} {h : SharedPtr} {a : Alloc α}
    (hl : st.lookup h = some a) : st.allocs.get? h.id = some (some a) := by
  unfold Store.lookup at hl
  split at hl
  next heq => cases hl; exact heq
  next => exact absurd hl (by simp)

theorem Store.lookup_lt_length {st : Store α} {h : SharedPtr} {a : Alloc α}
    (hl : st.lookup h = some a) : h.id < st.allocs.length :=
  (List.get?_eq_some.mp (Store.lookup_eq_some hl)).1

theorem Store.lookup_setAlloc_self {st : Store α} {i : Nat} (a : Option (Alloc α))
    (hlt : i < st.allocs.length) :
    (st.setAlloc i a).allocs.get? i = some a := by
  unfold Store.setAlloc
  exact List.get?_set_eq_of_lt a hlt

/-- C1 helper: the value read back right after a write is the written value. -/
theorem Store.readVal_writeVal_self {st : Store α} {h : SharedPtr} {a : Alloc α}
    (hl : st.lookup h = some a) (v : α) :
    (st.writeVal h v).readVal h = some v := by
  unfold Store.writeVal
  rw [hl]
  unfold Store.readVal Store.lookup
  rw [Store.lookup_setAlloc_self _ (Store.lookup_lt_length hl)]
  rfl

theorem Store.lookup_setAlloc_some {st : Store α} {i : Nat} (a : Alloc α)
    (hlt : i < st.allocs.length) :
    (st.setAlloc i (some a)).lookup ⟨i⟩ = some a := by
  unfold Store.lookup
  rw [Store.lookup_setAlloc_self _ hlt]

/-- A concrete one-allocation heap used to instantiate hypotheses of the
general theorems: one live cell holding `5` with strong count 1. -/
def sampleStore : Store Nat := ⟨[some ⟨5, 1⟩]⟩

/-- The strong handle to `sampleStore`'s only allocation. -/
def sampleHandle : SharedPtr := ⟨0⟩

/-- C1: after `h2 = h.clone()`, assigning a new value `v` through the guard
returned by `h.write()` makes dereferencing the guard returned by
`h2.read()` yield `v`, and symmetrically writing through the clone is
observed through the original: `clone` returns a handle to the very same
allocation (`(h.clone st).1 = h`), so all clones share exactly one
logical value and there is no copy-on-write divergence. -/
theorem c1_clone_shares_single_value (st : Store α) (h : SharedPtr) (a : Alloc α) (v : α)
    (hlive : st.lookup h = some a) :
    (h.clone st).1 = h ∧
    ((h.clone st).2.writeVal h v).readVal (h.clone st).1 = some v ∧
    ((h.clone st).2.writeVal (h.clone st).1 v).readVal h = some v := by
  have hlt := Store.lookup_lt_length hlive
  unfold SharedPtr.clone
  rw [hlive]
  have hl2 : (st.setAlloc h.id (some { a with strong := a.strong + 1 })).lookup h
      = some { a with strong := a.strong + 1 } :=
    Store.lookup_setAlloc_some { a with strong := a.strong + 1 } hlt
  exact ⟨rfl, Store.readVal_writeVal_self hl2 v, Store.readVal_writeVal_self hl2 v⟩

/-- C1 witness: on a concrete heap with one cell holding `5`, cloning the
handle, writing `42` through one handle and reading through the other
yields `42`, in both directions. -/
theorem c1_clone_shares_single_value_witness :
    (sampleHandle.clone sampleStore).1 = sampleHandle ∧
    ((sampleHandle.clone sampleStore).2.writeVal sampleHandle 42).readVal
      (sampleHandle.clone sampleStore).1 = some 42 ∧
    ((sampleHandle.clone sampleStore).2.writeVal (sampleHandle.clone sampleStore).1 42).readVal
      sampleHandle = some 42 :=
  c1_clone_shares_single_value sampleStore sampleHandle ⟨5, 1⟩ 42 (by decide)

/-! ### Derived trait implementations: Eq, Ord, Hash, Default, serde
(lib.rs lines 85-163). Each acquires a read guard on each side and
delegates to the contained value; the type parameters `cmpf`, `pcf`,
`hf`, `enc`, `dec` stand for the contained type's own `Ord::cmp`,
`PartialOrd::partial_cmp`, `Hash`, serializer and deserializer. -/

/-- Models `PartialEq for $name` (lib.rs 118-125): `self.read().eq(&other.read())` —
acquire a read guard on each side and compare the dereferenced values.
`none` models a dangling handle (unreachable for live handles). -/
def SharedPtr.eq [DecidableEq α] (st : Store α) (x y : SharedPtr) : Option Bool :=
  match st.readVal x, st.readVal y with
  | some v1, some v2 => some (decide (v1 = v2))
  | _, _ => none

/-- Models `Ord for $name` (lib.rs 138-145): `self.read().cmp(&other.read())` with
`cmpf` the contained type's `cmp`. -/
def SharedPtr.cmp (cmpf : α → α → Ordering) (st : Store α) (x y : SharedPtr) :
    Option Ordering :=
  match st.readVal x, st.readVal y with
  | some v1, some v2 => some (cmpf v1 v2)
  | _, _ => none

/-- Models `PartialOrd for $name` (lib.rs 129-136):
`self.read().partial_cmp(&other.read())` with `pcf` the contained type's
`partial_cmp` (which may itself return `None`, hence the inner option). -/
def SharedPtr.pcmp (pcf : α → α → Option Ordering) (st : Store α) (x y : SharedPtr) :
    Option (Option Ordering) :=
  match st.readVal x, st.readVal y with
  | some v1, some v2 => some (pcf v1 v2)
  | _, _ => none

/-- Models `Hash for $name` (lib.rs 147-154): `self.read().hash(state)` with `hf`
the contained type's hash. The allocation id (the address) is not an
input of the hash. -/
def SharedPtr.hash (hf : α → Nat) (st : Store α) (x : SharedPtr) : Option Nat :=
  (st.readVal x).map hf

/-- Models `Default for $name` (lib.rs 156-163): `$name::new(T::default())`. The
`Inhabited α` bound models the `T: Sized + Default` bound: the impl
exists exactly when the contained type has a default value. -/
def SharedPtr.default [Inhabited α] (st : Store α) : SharedPtr × Store α :=
  SharedPtr.new (Inhabited.default : α) st

/-- Models `Serialize for $name` (lib.rs 98-110): acquire a read guard
(`self.0.deref().$read_fn()`) and serialize the dereferenced contained
value directly with the external serializer `enc` — the wrapper adds
nothing of its own to the serialized form. -/
def SharedPtr.serialize {β : Type} (enc : α → β) (st : Store α) (h : SharedPtr) :
    Option β :=
  (st.readVal h).map enc

/-- Models `Deserialize for $name` (lib.rs 85-96):
`Ok($name::new(T::deserialize(deserializer)?))` — run the external
deserializer `dec` (which may fail) and wrap its output in a fresh
allocation via `new`. -/
def SharedPtr.deserialize {β : Type} (dec : β → Option α) (b : β) (st : Store α) :
    Option (SharedPtr × Store α) :=
  (dec b).map (fun v => SharedPtr.new v st)

/-! ### Lemmas about `new` -/

/-- Reading a freshly created cell yields the initial value. -/
theorem Store.readVal_new_self (v : α) (st : Store α) :
    (SharedPtr.new v st).2.readVal (SharedPtr.new v st).1 = some v := by
  unfold SharedPtr.new Store.readVal Store.lookup
  simp only [List.get?_concat_length]
  rfl

/-- A fresh allocation leaves every existing allocation untouched. -/
theorem Store.readVal_new_other (v : α) (st : Store α) (h : SharedPtr)
    (hlt : h.id < st.allocs.length) :
    (SharedPtr.new v st).2.readVal h = st.readVal h := by
  unfold SharedPtr.new Store.readVal Store.lookup
  simp only [List.get?_append hlt]

/-- C3: two freshly allocated cells are distinct allocations, yet `eq`
compares equal exactly when the contained values are equal, and `cmp`,
`partial_cmp` and `hash` likewise delegate to the values read through a
read guard on each side — the allocation id never enters the result. -/
theorem c3_value_based_comparisons [DecidableEq α] (cmpf : α → α → Ordering)
    (pcf : α → α → Option Ordering) (hf : α → Nat) (v1 v2 : α) (st : Store α) :
    (SharedPtr.new v1 st).1 ≠ (SharedPtr.new v2 (SharedPtr.new v1 st).2).1 ∧
    (SharedPtr.eq (SharedPtr.new v2 (SharedPtr.new v1 st).2).2 (SharedPtr.new v1 st).1
        (SharedPtr.new v2 (SharedPtr.new v1 st).2).1 = some true ↔ v1 = v2) ∧
    SharedPtr.cmp cmpf (SharedPtr.new v2 (SharedPtr.new v1 st).2).2 (SharedPtr.new v1 st).1
        (SharedPtr.new v2 (SharedPtr.new v1 st).2).1 = some (cmpf v1 v2) ∧
    SharedPtr.pcmp pcf (SharedPtr.new v2 (SharedPtr.new v1 st).2).2 (SharedPtr.new v1 st).1
        (SharedPtr.new v2 (SharedPtr.new v1 st).2).1 = some (pcf v1 v2) ∧
    SharedPtr.hash hf (SharedPtr.new v2 (SharedPtr.new v1 st).2).2 (SharedPtr.new v1 st).1
        = some (hf v1) ∧
    SharedPtr.hash hf (SharedPtr.new v2 (SharedPtr.new v1 st).2).2
        (SharedPtr.new v2 (SharedPtr.new v1 st).2).1 = some (hf v2) := by
  have h1 : (SharedPtr.new v2 (SharedPtr.new v1 st).2).2.readVal (SharedPtr.new v1 st).1
      = some v1 := by
    rw [Store.readVal_new_other v2 (SharedPtr.new v1 st).2 (SharedPtr.new v1 st).1
      (by simp [SharedPtr.new])]
    exact Store.readVal_new_self v1 st
  have h2 : (SharedPtr.new v2 (SharedPtr.new v1 st).2).2.readVal
      (SharedPtr.new v2 (SharedPtr.new v1 st).2).1 = some v2 :=
    Store.readVal_new_self v2 (SharedPtr.new v1 st).2
  refine ⟨?_, ?_, ?_, ?_, ?_, ?_⟩
  · simp only [SharedPtr.new, ne_eq, SharedPtr.mk.injEq, List.length_append,
      List.length_cons, List.length_nil]
    omega
  · unfold SharedPtr.eq
    rw [h1, h2]
    simp
  · unfold SharedPtr.cmp
    rw [h1, h2]
  · unfold SharedPtr.pcmp
    rw [h1, h2]
  · unfold SharedPtr.hash
    rw [h1]
    rfl
  · unfold SharedPtr.hash
    rw [h2]
    rfl

/-- C6: `default()` is exactly `new(T::default())`: a fresh allocation (its
id is the next free one) wrapping the contained type's default value,
which reads back as that default. The `Inhabited` bound mirrors the
`T: Default` bound under which alone the impl is defined. -/
theorem c6_default_is_new_default [Inhabited α] (st : Store α) :
    SharedPtr.default (α := α) st = SharedPtr.new (Inhabited.default : α) st ∧
    (SharedPtr.default (α := α) st).2.readVal (SharedPtr.default (α := α) st).1
      = some (Inhabited.default : α) ∧
    (SharedPtr.default (α := α) st).1.id = st.allocs.length :=
  ⟨rfl, Store.readVal_new_self _ st, rfl⟩

/-- C5: serialization is transparent. Serializing a live cell feeds exactly
the contained value to the external serializer `enc`; deserializing a
representation `enc v` with a deserializer `dec` that inverts `enc`
produces precisely `SharedPtr::new(v)`, a fresh cell whose contained
value reads back equal to the original. -/
theorem c5_serde_transparent_roundtrip {β : Type} (enc : α → β) (dec : β → Option α)
    (st st2 : Store α) (h : SharedPtr) (a : Alloc α)
    (hrt : dec (enc a.value) = some a.value)
    (hl : st.lookup h = some a) :
    SharedPtr.serialize enc st h = some (enc a.value) ∧
    SharedPtr.deserialize dec (enc a.value) st2 = some (SharedPtr.new a.value st2) ∧
    (SharedPtr.new a.value st2).2.readVal (SharedPtr.new a.value st2).1 = some a.value := by
  refine ⟨?_, ?_, Store.readVal_new_self _ _⟩
  · unfold SharedPtr.serialize Store.readVal
    rw [hl]
    rfl
  · unfold SharedPtr.deserialize
    rw [hrt]
    rfl

/-- C5 witness: with the identity serializer on `Nat`, the cell holding `5`
serializes to `5`, and deserializing `5` into the empty heap yields
exactly `new 5`, which reads back as `5`. -/
theorem c5_serde_transparent_roundtrip_witness :
    SharedPtr.serialize (fun n => n) sampleStore sampleHandle = some 5 ∧
    SharedPtr.deserialize (fun n => some n) 5 (Store.empty : Store Nat)
      = some (SharedPtr.new 5 Store.empty) ∧
    (SharedPtr.new 5 (Store.empty : Store Nat)).2.readVal
      (SharedPtr.new 5 (Store.empty : Store Nat)).1 = some 5 :=
  c5_serde_transparent_roundtrip (fun n => n) (fun n => some n) sampleStore Store.empty
    sampleHandle ⟨5, 1⟩ (by decide) (by decide)

/-! ### Weak handles (lib.rs lines 165-187) -/

/-- Unfolding `upgrade` on a downgraded handle (definitional). -/
theorem WeakPtr.upgrade_downgrade (st : Store α) (h : SharedPtr) :
    (WeakPtr.downgrade h).upgrade st =
      match st.allocs.get? h.id with
      | some (some a) =>
        if 0 < a.strong then
          some (⟨h.id⟩, st.setAlloc h.id (some { a with strong := a.strong + 1 }))
        else none
      | _ => none := rfl

/-- Dropping the last strong handle (strong count 1) frees the value, and a
weak handle to that allocation then fails to upgrade. -/
theorem WeakPtr.upgrade_after_last_drop {st : Store α} {h : SharedPtr} {v : α}
    (hg : st.allocs.get? h.id = some (some ⟨v, 1⟩)) :
    (WeakPtr.downgrade h).upgrade (h.dropStrong st) = none := by
  have hlt : h.id < st.allocs.length := (List.get?_eq_some.mp hg).1
  have hlook : st.lookup h = some ⟨v, 1⟩ := by
    unfold Store.lookup
    rw [hg]
  have hd : h.dropStrong st = st.setAlloc h.id none := by
    unfold SharedPtr.dropStrong
    rw [hlook]
    rfl
  rw [WeakPtr.upgrade_downgrade, hd, Store.lookup_setAlloc_self none hlt]

/-- C4: `upgrade()` returns a new strong handle to the same allocation
exactly when the allocation is still live (a strong handle exists):
(i) the empty weak handle of the no-argument `WeakPtr::new` upgrades to
`None` in every heap; (ii) a downgraded handle upgrades successfully iff
its allocation is live with a positive strong count; (iii) a successful
upgrade yields a handle to the same allocation observing the same value;
(iv) a weak handle never keeps the value alive — once the last strong
handle of a freshly created cell is dropped, upgrading returns `None`. -/
theorem c4_weak_upgrade_iff_live (st : Store α) (h : SharedPtr) (v : α) :
    WeakPtr.new.upgrade st = (none : Option (SharedPtr × Store α)) ∧
    ((WeakPtr.downgrade h).upgrade st ≠ none ↔
      ∃ a : Alloc α, st.allocs.get? h.id = some (some a) ∧ 0 < a.strong) ∧
    (∀ p st2, (WeakPtr.downgrade h).upgrade st = some (p, st2) →
      p.id = h.id ∧ st2.readVal p = st.readVal h) ∧
    (WeakPtr.downgrade (SharedPtr.new v st).1).upgrade
      ((SharedPtr.new v st).1.dropStrong (SharedPtr.new v st).2) = none := by
  refine ⟨rfl, ?_, ?_, ?_⟩
  · rw [WeakPtr.upgrade_downgrade]
    cases hg : st.allocs.get? h.id with
    | none => simp
    | some o =>
      cases o with
      | none => simp
      | some a =>
        by_cases hs : 0 < a.strong
        · simp only [if_pos hs]
          simp [hs]
        · simp only [if_neg hs]
          simp [hs]
  · intro p st2 hup
    rw [WeakPtr.upgrade_downgrade] at hup
    cases hg : st.allocs.get? h.id with
    | none => rw [hg] at hup; cases hup
    | some o =>
      cases o with
      | none => rw [hg] at hup; cases hup
      | some a =>
        rw [hg] at hup
        dsimp only at hup
        by_cases hs : 0 < a.strong
        · rw [if_pos hs] at hup
          simp only [Option.some.injEq, Prod.mk.injEq] at hup
          obtain ⟨hp, hst⟩ := hup
          subst hp
          subst hst
          have hlt : h.id < st.allocs.length := (List.get?_eq_some.mp hg).1
          refine ⟨rfl, ?_⟩
          unfold Store.readVal
          rw [Store.lookup_setAlloc_some _ hlt]
          unfold Store.lookup
          rw [hg]
          rfl
        · rw [if_neg hs] at hup
          cases hup
  · exact WeakPtr.upgrade_after_last_drop (List.get?_concat_length st.allocs (some ⟨v, 1⟩))

/-! ### The `rc_refcell` variant: `RefCell` runtime borrow checking
(lib.rs line 221: `define_shared_mut!(SharedPtr, WeakPtr, Rc, Weak,
RefCell, borrow, borrow_mut, Ref, RefMut)`). -/

/-- The borrow flag of a `RefCell`: no guard outstanding, `n` outstanding
read guards (`n ≥ 1` in every reachable state), or one outstanding write
guard. -/
inductive BorrowFlag
  | free
  | reading (n : Nat)
  | writing
  deriving DecidableEq

/-- Models `RefCell::borrow`, the `$read_fn` of the `rc_refcell` variant: the new
flag on success; `none` models the panic (`already mutably borrowed`),
raised synchronously at the moment of the request — nothing blocks or
queues. -/
def borrowRead : BorrowFlag → Option BorrowFlag
  | .free => some (.reading 1)
  | .reading n => some (.reading (n + 1))
  | .writing => none

/-- Models `RefCell::borrow_mut`, the `$write_fn` of the `rc_refcell` variant:
succeeds only with no guard outstanding; `none` models the panic
(`already borrowed`), raised synchronously at the request. -/
def borrowWrite : BorrowFlag → Option BorrowFlag
  | .free => some .writing
  | .reading _ => none
  | .writing => none

/-- The state behind one `rc_refcell::SharedPtr` allocation: the contained
value and the `RefCell`'s borrow flag. -/
structure RcCell (α : Type) where
  value : α
  flag : BorrowFlag
  deriving DecidableEq

/-- Models `rc_refcell::SharedPtr::read` (lib.rs 59-61): `self.0.deref().borrow()` —
on success, the value visible through the new `Ref` guard and the cell
with the guard recorded; `none` is the panic. -/
def RcCell.read (c : RcCell α) : Option (α × RcCell α) :=
  (borrowRead c.flag).map (fun f => (c.value, { c with flag := f }))

/-- Models `rc_refcell::SharedPtr::write` (lib.rs 63-65): `self.0.deref().borrow_mut()`. -/
def RcCell.write (c : RcCell α) : Option (α × RcCell α) :=
  (borrowWrite c.flag).map (fun f => (c.value, { c with flag := f }))

/-- C2: in the `rc_refcell` variant, `write()` succeeds exactly when no
guard at all is outstanding — so requesting a write guard while any read
or write guard is outstanding panics — and `read()` succeeds exactly when
no write guard is outstanding — so any request while a write guard is
outstanding panics, while any number of concurrent read guards coexist.
The failure is the `none` of the very request: it is detected
synchronously, never blocked or queued. -/
theorem c2_refcell_exclusivity (c : RcCell α) :
    (c.write ≠ none ↔ c.flag = BorrowFlag.free) ∧
    (c.read ≠ none ↔ c.flag ≠ BorrowFlag.writing) := by
  unfold RcCell.read RcCell.write
  cases hf : c.flag <;> simp [borrowRead, borrowWrite]

/-! ### Debug rendering (lib.rs lines 76-83) -/

/-- Models `Debug for $name` (lib.rs 76-83):
`f.debug_tuple("$name").field(&self.read()).finish()`. The tuple name is
the STRING LITERAL `"$name"`: inside `macro_rules!` a metavariable is not
substituted within a string literal, so every variant renders with the
literal text `$name`, not with the type's name `SharedPtr`. The field is
the current contained value, acquired through a read guard (`self.read()`)
at render time; no allocation address enters the output. `dbg` is the
contained type's own Debug rendering. -/
def SharedPtr.debugFmt (dbg : α → String) (st : Store α) (h : SharedPtr) :
    Option String :=
  (st.readVal h).map (fun v => "$name" ++ "(" ++ dbg v ++ ")")

/-- C7: on the concrete cell `new 5`, the Debug rendering is the literal
`$name(5)` — the current value behind a read guard, with no address — and
NOT `SharedPtr(5)`: the macro passes `"$name"` as a string literal, which
`macro_rules!` does not substitute, so the rendered wrapper name is not
the cell type's name as the claim states. -/
theorem c7_debug_renders_literal_dollar_name :
    SharedPtr.debugFmt (fun n => toString n) (SharedPtr.new (5 : Nat) Store.empty).2
      (SharedPtr.new (5 : Nat) Store.empty).1 = some ("$name" ++ "(5)") ∧
    ("$name" ++ "(5)") ≠ "SharedPtr" ++ "(5)" := by
  constructor
  · rfl
  · decide

/-! ### The `arc_mutex` variant: `parking_lot::Mutex`
(lib.rs line 240: `define_shared_mut!(SharedPtr, WeakPtr, Arc, Weak,
Mutex, lock, lock, MutexGuard, MutexGuard)`): both `$read_fn` and
`$write_fn` are `lock`. -/

/-- The result of acquiring a `parking_lot` lock: either the guard is
granted, or the caller blocks until the current holder releases. There is
no third outcome: `parking_lot`'s `lock`/`read`/`write` return the guard
directly — the API has no error and no poison variant (unlike
`std::sync`, a panic of a holder merely unlocks on unwind). -/
inductive Acq (β : Type)
  | acquired (g : β)
  | blocked
  deriving DecidableEq

/-- The state of one `Arc<parking_lot::Mutex<T>>` allocation: the contained
value and whether the mutex is currently held. No further field exists:
`parking_lot::Mutex` keeps no poison flag. -/
structure MutexState (α : Type) where
  value : α
  held : Bool
  deriving DecidableEq

/-- Models `parking_lot::Mutex::lock`: grants the guard (the value it dereferences
to, and the state with the mutex held) when the mutex is free; otherwise
the caller blocks until it is released. The mutex is not reentrant: a
context that already holds it and requests it again is itself the blocked
caller. -/
def MutexState.lock (m : MutexState α) : Acq (α × MutexState α) :=
  if m.held then Acq.blocked else Acq.acquired (m.value, { m with held := true })

/-- Models `arc_mutex::SharedPtr::read` (lib.rs 59-61 with `$read_fn = lock`). -/
def MutexState.read (m : MutexState α) : Acq (α × MutexState α) := m.lock

/-- Models `arc_mutex::SharedPtr::write` (lib.rs 63-65 with `$write_fn = lock`). -/
def MutexState.write (m : MutexState α) : Acq (α × MutexState α) := m.lock

/-- Abnormal termination of the context holding the mutex: unwinding drops
the `MutexGuard`, and dropping a `parking_lot::MutexGuard` simply unlocks
the mutex. Nothing else of the state changes — in particular no poison is
recorded, because the state has no field that could record one. -/
def MutexState.panicWhileHeld (m : MutexState α) : MutexState α :=
  { m with held := false }

/-- C8: in the `arc_mutex` variant `read()` and `write()` are the same
function — both acquire the one exclusive lock, so there is no
concurrent-read path: whenever any guard is outstanding (`held`), a
request blocks (the caller waits; `Acq` has no failure outcome to signal
an error with), and in particular a second reader blocks while a first
reader holds its guard. -/
theorem c8_mutex_read_write_same_lock (m : MutexState α) :
    m.read = m.write ∧
    (m.held = true → m.read = Acq.blocked) ∧
    (m.held = false → m.read = Acq.acquired (m.value, { m with held := true })) ∧
    (∀ v m2, m.read = Acq.acquired (v, m2) → m2.read = Acq.blocked) := by
  refine ⟨rfl, ?_, ?_, ?_⟩
  · intro hh
    unfold MutexState.read MutexState.lock
    rw [hh]
    rfl
  · intro hh
    unfold MutexState.read MutexState.lock
    rw [hh]
    rfl
  · intro v m2 hacq
    unfold MutexState.read MutexState.lock at hacq ⊢
    cases hh : m.held with
    | true => rw [hh] at hacq; cases hacq
    | false =>
      rw [hh] at hacq
      rw [if_neg (by simp)] at hacq
      cases hacq
      rfl

/-! ### The `arc_rwlock` variant: `parking_lot::RwLock`
(lib.rs lines 260-270: `define_shared_mut!` with `read`/`write` and
`RwLockReadGuard`/`RwLockWriteGuard`). -/

/-- The state of a `parking_lot::RwLock`: free, held by `n` readers, or
held by one writer. No poison flag exists here either. -/
inductive RwState
  | unlocked
  | readLocked (n : Nat)
  | writeLocked
  deriving DecidableEq

/-- One `Arc<parking_lot::RwLock<T>>` allocation. -/
structure RwCell (α : Type) where
  value : α
  lockState : RwState
  deriving DecidableEq

/-- Models `arc_rwlock::SharedPtr::read`: `RwLock::read` — shared with other
readers, blocks while a writer holds the lock. -/
def RwCell.read (c : RwCell α) : Acq (α × RwCell α) :=
  match c.lockState with
  | RwState.unlocked => Acq.acquired (c.value, { c with lockState := RwState.readLocked 1 })
  | RwState.readLocked n =>
    Acq.acquired (c.value, { c with lockState := RwState.readLocked (n + 1) })
  | RwState.writeLocked => Acq.blocked

/-- Models `arc_rwlock::SharedPtr::write`: `RwLock::write` — exclusive, blocks
while any reader or writer holds the lock. -/
def RwCell.write (c : RwCell α) : Acq (α × RwCell α) :=
  match c.lockState with
  | RwState.unlocked => Acq.acquired (c.value, { c with lockState := RwState.writeLocked })
  | _ => Acq.blocked

/-- Abnormal termination of the context holding the write guard: unwinding
drops the `RwLockWriteGuard`, which unlocks; `parking_lot::RwLock`
records no poison. -/
def RwCell.panicWhileWriteHeld (c : RwCell α) : RwCell α :=
  { c with lockState := RwState.unlocked }

/-- C9 counterexample: on the `arc_mutex` cell holding `7` whose lock was
held by an abnormally terminated holder, a subsequent `read()` succeeds
and silently continues with the contained value `7`; likewise for the
`arc_rwlock` cell. Nothing is propagated: the crate's locks are
`parking_lot` locks, which have no poison state at all, contradicting the
claim that the abnormal termination is propagated to the caller. -/
theorem c9_no_poison_counterexample :
    (MutexState.panicWhileHeld ⟨(7 : Nat), true⟩).read
      = Acq.acquired (7, ⟨7, true⟩) ∧
    (RwCell.panicWhileWriteHeld ⟨(7 : Nat), RwState.writeLocked⟩).read
      = Acq.acquired (7, ⟨7, RwState.readLocked 1⟩) := by
  exact ⟨rfl, rfl⟩

/-- C9 (amended): in the `arc_mutex` and `arc_rwlock` variants a lock whose
holder terminated abnormally is simply released when the guard is dropped
during unwinding — `parking_lot` locks do not poison — and a subsequent
`read()` or `write()` acquires the lock normally and continues with the
contained value rather than propagating the abnormal termination. -/
theorem c9_locks_release_on_abnormal_termination (m : MutexState α) (c : RwCell α) :
    (m.panicWhileHeld).read = Acq.acquired (m.value, { m with held := true }) ∧
    (m.panicWhileHeld).write = Acq.acquired (m.value, { m with held := true }) ∧
    (c.panicWhileWriteHeld).read
      = Acq.acquired (c.value, { c with lockState := RwState.readLocked 1 }) ∧
    (c.panicWhileWriteHeld).write
      = Acq.acquired (c.value, { c with lockState := RwState.writeLocked }) :=
  ⟨rfl, rfl, rfl, rfl⟩

/-! ### `PartialEq` in the `arc_mutex` variant: the allocation-level mutex
store needed to talk about two clones of one allocation. -/

/-- An `Arc<parking_lot::Mutex<T>>` allocation: contained value, strong
count, and whether its mutex is currently held. -/
structure MxAlloc (α : Type) where
  value : α
  strong : Nat
  held : Bool
  deriving DecidableEq

/-- A heap of `arc_mutex` allocations, indexed by allocation id as in
`Store`. -/
structure MxStore (α : Type) where
  allocs : List (Option (MxAlloc α))
  deriving DecidableEq

/-- Models `Mutex::lock` on the allocation a handle designates: blocks while the
mutex is held (a dangling handle, unreachable for live handles, also
yields `blocked`). -/
def MxStore.lockAlloc (st : MxStore α) (h : SharedPtr) : Acq (α × MxStore α) :=
  match st.allocs.get? h.id with
  | some (some a) =>
    if a.held then Acq.blocked
    else Acq.acquired (a.value, ⟨st.allocs.set h.id (some { a with held := true })⟩)
  | _ => Acq.blocked

/-- Models `Clone for arc_mutex::SharedPtr` (lib.rs 112-116): same allocation,
strong count incremented, the mutex itself untouched. -/
def MxStore.clone (st : MxStore α) (h : SharedPtr) : SharedPtr × MxStore α :=
  match st.allocs.get? h.id with
  | some (some a) =>
    (⟨h.id⟩, ⟨st.allocs.set h.id (some { a with strong := a.strong + 1 })⟩)
  | _ => (⟨h.id⟩, st)

/-- Models `PartialEq for arc_mutex::SharedPtr` (lib.rs 118-125):
`self.read().eq(&other.read())`. The receiver's guard `self.read()` is
acquired first and is still outstanding when `other.read()` is requested,
so the second acquisition runs against the state left by the first.
`parking_lot::Mutex` is not reentrant, and the context blocked on the
second acquisition is the very holder of the first guard, so an
`Acq.blocked` here is permanent: the comparison never returns. -/
def MxStore.eqCells [DecidableEq α] (st : MxStore α) (x y : SharedPtr) : Acq Bool :=
  match st.lockAlloc x with
  | Acq.blocked => Acq.blocked
  | Acq.acquired (v1, st1) =>
    match st1.lockAlloc y with
    | Acq.blocked => Acq.blocked
    | Acq.acquired (v2, _) => Acq.acquired (decide (v1 = v2))

/-- C10: in the `arc_mutex` variant, comparing a live, unlocked cell with
its own clone acquires the same non-reentrant mutex twice — the first
read guard is still held when the second is requested — so `h == h.clone()`
deadlocks (`Acq.blocked`, permanently, since the blocked caller is the
holder) instead of returning `true`. -/
theorem c10_eq_with_own_clone_deadlocks [DecidableEq α] (st : MxStore α) (h : SharedPtr)
    (a : MxAlloc α) (hg : st.allocs.get? h.id = some (some a)) (hfree : a.held = false) :
    (st.clone h).1 = h ∧
    MxStore.eqCells (st.clone h).2 h (st.clone h).1 = Acq.blocked := by
  have hlt : h.id < st.allocs.length := (List.get?_eq_some.mp hg).1
  constructor
  · unfold MxStore.clone
    rw [hg]
  · unfold MxStore.eqCells MxStore.lockAlloc MxStore.clone
    rw [hg]
    dsimp only
    rw [List.get?_set_eq_of_lt _ hlt]
    dsimp only
    rw [hfree, if_neg Bool.false_ne_true]
    dsimp only
    rw [List.get?_set_eq_of_lt _ (by simpa using hlt)]
    rfl

/-- A concrete `arc_mutex` heap: one live cell holding `3`, strong count 1,
mutex free. -/
def mxSampleStore : MxStore Nat := ⟨[some ⟨3, 1, false⟩]⟩

/-- C10 witness: on the concrete one-cell heap, comparing the handle with
its own clone blocks. -/
theorem c10_eq_with_own_clone_deadlocks_witness :
    (mxSampleStore.clone sampleHandle).1 = sampleHandle ∧
    MxStore.eqCells (mxSampleStore.clone sampleHandle).2 sampleHandle
      (mxSampleStore.clone sampleHandle).1 = Acq.blocked :=
  c10_eq_with_own_clone_deadlocks mxSampleStore sampleHandle ⟨3, 1, false⟩
    (by decide) (by decide)

end SharedPtrSpec
